import Mathlib

/-!
Verification of the MirrorMind bot's user-preference and prompt-dispatch
module (`src/kmai2.py`), shallowly embedded in Lean 4.

Modelling conventions:
* Python strings become Lean `String`; Python `needle in haystack`
  substring tests become `containsSub` (contiguous sublist of the
  character list).
* The SQLite tables `users(user_id PRIMARY KEY, language)` and
  `messages(user_id, text, mood_score, timestamp)` become association
  lists inside a `DB` structure; the `INSERT .. ON CONFLICT DO UPDATE`
  upsert becomes `set_language`, the point lookup becomes `get_language`.
* Each Telegram handler becomes a pure function from the database, the
  message data and an `Env` of external-world outcomes (media download
  result, generation-call result, current time) to an `Except`-wrapped
  `Outcome`: `Except.error e` models a Python exception escaping the
  handler to the chat SDK, `Except.ok` carries the new database state,
  the list of replies sent, and the list of generation calls made.
-/

/-- Does the first character list start the second one? -/
def charsPrefix : List Char → List Char → Bool
  | [], _ => true
  | _ :: _, [] => false
  | a :: as, b :: bs => a == b && charsPrefix as bs

/-- Does the first character list occur contiguously inside the second? -/
def charsSub (needle : List Char) : List Char → Bool
  | [] => needle.isEmpty
  | b :: bs => charsPrefix needle (b :: bs) || charsSub needle bs

/-- Python `needle in haystack` for strings: contiguous substring test. -/
def containsSub (hay needle : String) : Bool :=
  charsSub needle.toList hay.toList

/-- The five supported language tags, in the priority order of
`normalize_language`. -/
def langNames : List String :=
  ["Hinglish", "Bengalish", "English", "Hindi", "Bengali"]

/-- `normalize_language` from `src/kmai2.py` lines 78-89: substring
matching against the five tag names in a fixed order. -/
def normalize_language (text : String) : Option String :=
  if containsSub text "Hinglish" then some "Hinglish"
  else if containsSub text "Bengalish" then some "Bengalish"
  else if containsSub text "English" then some "English"
  else if containsSub text "Hindi" then some "Hindi"
  else if containsSub text "Bengali" then some "Bengali"
  else none

/-- `language_instruction` from `src/kmai2.py` lines 91-99: a
`dict.get` with default, taking `some s` for a Python string and `none`
for Python `None`. -/
def language_instruction (lang : Option String) : String :=
  match lang with
  | some l =>
    if l = "English" then "Respond in English."
    else if l = "Hindi" then "Respond in Hindi using Devanagari script."
    else if l = "Bengali" then "Respond in Bengali script."
    else if l = "Hinglish" then "Respond in Hinglish (Hindi written in English letters)."
    else if l = "Bengalish" then "Respond in Bengalish (Bengali written in English letters)."
    else "Respond in English."
  | none => "Respond in English."

example : normalize_language "I want Hindi" = some "Hindi" := by decide
example : normalize_language "hello there" = none := by decide
example : normalize_language "HinglishBengalish" = some "Hinglish" := by decide
example : normalize_language "english" = none := by decide
example : language_instruction (some "Bengali") = "Respond in Bengali script." := by decide

/-! ## Database model

The two SQLite tables from `src/kmai2.py` lines 43-57.  `users` has
`user_id` as primary key, so it is an association list with at most one
row per key; `messages` is append-only. -/

/-- One row of the `messages` table. -/
structure MessageRow where
  user_id : Nat
  text : String
  mood_score : Option Int
  timestamp : Option Nat
deriving DecidableEq

/-- The database: `users(user_id PRIMARY KEY, language)` and
`messages(user_id, text, mood_score, timestamp)`. -/
structure DB where
  users : List (Nat × String)
  messages : List MessageRow
deriving DecidableEq

/-- `SELECT language FROM users WHERE user_id=?` followed by `fetchone`:
`none` models an absent row. -/
def get_language (db : DB) (uid : Nat) : Option String :=
  (db.users.find? (fun p => p.1 == uid)).map Prod.snd

/-- `INSERT INTO users .. ON CONFLICT(user_id) DO UPDATE SET
language=excluded.language`: upsert keyed on `user_id`. -/
def set_language (db : DB) (uid : Nat) (tag : String) : DB :=
  if db.users.any (fun p => p.1 == uid) then
    { db with users := db.users.map (fun p => if p.1 == uid then (uid, tag) else p) }
  else
    { db with users := db.users ++ [(uid, tag)] }

/-! ## Generation boundary and handler outcomes -/

/-- One unit of a generation-request payload: inline text, or binary
media with a MIME type. -/
inductive Segment where
  | text (s : String)
  | blob (data : List Nat) (mime : String)
deriving DecidableEq

/-- External-world outcomes a single message handling can observe:
the media download (`get_file` / `download_as_bytearray`, which can
throw), the raw result of `client.models.generate_content` as used by
`generate_ai` (an exception, or a response whose `.text` may be a string
or `None`), the raw result of the media-path `generate_content` call
(an exception inside the `try`, or a reply text), and the clock value
`datetime.now()`. -/
structure Env where
  mediaFetch : Except String (List Nat)
  genRaw : Except String (Option String)
  genMedia : Except String String
  now : Nat

/-- `generate_ai` from `src/kmai2.py` lines 106-115: any exception is
caught and surfaced as `None`; otherwise the response text (itself
possibly `None`) is returned. -/
def generate_ai (raw : Except String (Option String)) : Option String :=
  match raw with
  | .error _ => none
  | .ok v => v

/-- Python truthiness test `not ai_response` on an optional string:
true for `None` and for the empty string. -/
def falsyOpt (v : Option String) : Bool :=
  match v with
  | none => true
  | some s => s.isEmpty

/-- Result of one handler run on one inbound message: the database
afterwards, the replies sent to the originating user in order, and the
generation calls made (their payload segments). -/
structure Outcome where
  db : DB
  replies : List String
  calls : List (List Segment)
deriving DecidableEq

/-- The persona prompt template from `text_handler`
(`src/kmai2.py` lines 177-187). -/
def persona_prompt (lang : String) : String :=
  "\nYou are MirrorMind Pro.\n" ++ language_instruction (some lang) ++
    "\n\nTone:\n- Warm\n- Emotionally intelligent\n- Supportive\n\nRespond in 4–6 sentences.\n"

/-! ## Handlers -/

/-- `start` command handler, `src/kmai2.py` lines 122-134. -/
def start (db : DB) (uid : Nat) : Outcome :=
  match get_language db uid with
  | none => { db := db, replies := ["Select your language:"], calls := [] }
  | some _ => { db := db, replies := ["Hi. Tell me what\x27s on your mind."], calls := [] }

/-- `language_cmd` command handler, `src/kmai2.py` lines 137-141. -/
def language_cmd (db : DB) : Outcome :=
  { db := db, replies := ["Select language:"], calls := [] }

/-- `text_handler`, `src/kmai2.py` lines 148-201. -/
def text_handler (env : Env) (db : DB) (uid : Nat) (text : String) : Outcome :=
  match normalize_language text with
  | some lang_select =>
      { db := set_language db uid lang_select
        replies := ["Language set to " ++ lang_select ++ " ✅"]
        calls := [] }
  | none =>
    match get_language db uid with
    | none =>
        { db := db, replies := ["Please select language first."], calls := [] }
    | some lang =>
        let call := [Segment.text (persona_prompt lang), Segment.text text]
        match generate_ai env.genRaw with
        | some r =>
          if r.isEmpty then
            { db := db, replies := ["Error generating response."], calls := [call] }
          else
            { db := { db with messages := db.messages ++ [⟨uid, text, none, some env.now⟩] }
              replies := [r]
              calls := [call] }
        | none =>
            { db := db, replies := ["Error generating response."], calls := [call] }

/-- `photo_handler`, `src/kmai2.py` lines 209-236.  The `get_file` /
`download_as_bytearray` awaits happen before the `try` block, so a
download exception escapes the handler (`Except.error`); the
`generate_content` call and the reply are inside the `try`, whose
`except` sends the fallback text. -/
def photo_handler (env : Env) (db : DB) (uid : Nat) : Except String Outcome :=
  match env.mediaFetch with
  | .error e => .error e
  | .ok file_bytes =>
    let lang := (get_language db uid).getD "English"
    let call := [Segment.text (language_instruction (some lang) ++ " Describe this image emotionally."),
                 Segment.blob file_bytes "image/jpeg"]
    match env.genMedia with
    | .ok r => .ok { db := db, replies := [r], calls := [call] }
    | .error _ => .ok { db := db, replies := ["Couldn\x27t analyze image."], calls := [call] }

/-- `media.mime_type or "audio/ogg"`: Python `or` falls through on
`None` and on the empty string. -/
def resolveMime (m : Option String) : String :=
  match m with
  | none => "audio/ogg"
  | some s => if s.isEmpty then "audio/ogg" else s

/-- `audio_handler`, `src/kmai2.py` lines 243-272; same shape as the
photo handler, with the MIME type taken from the voice/audio object. -/
def audio_handler (env : Env) (db : DB) (uid : Nat) (mime : Option String) : Except String Outcome :=
  match env.mediaFetch with
  | .error e => .error e
  | .ok file_bytes =>
    let lang := (get_language db uid).getD "English"
    let call := [Segment.text (language_instruction (some lang) ++ " Transcribe this audio and respond emotionally."),
                 Segment.blob file_bytes (resolveMime mime)]
    match env.genMedia with
    | .ok r => .ok { db := db, replies := [r], calls := [call] }
    | .error _ => .ok { db := db, replies := ["Couldn\x27t process audio."], calls := [call] }

/-- `video_handler`, `src/kmai2.py` lines 279-282. -/
def video_handler (db : DB) : Outcome :=
  { db := db, replies := ["Video analysis currently limited. Coming soon 🔥"], calls := [] }

/-- Content kinds, mirroring the mutually exclusive Telegram filters of
the dispatcher (`src/kmai2.py` lines 296-301). -/
inductive Msg where
  | startCmd
  | languageCmd
  | plainText (text : String)
  | photoMsg
  | voiceMsg (mime : Option String)
  | videoMsg
deriving DecidableEq

/-- The Dispatch Router: route one inbound message to its handler.
`Except.error` models a Python exception escaping to the chat SDK. -/
def handle (env : Env) (db : DB) (uid : Nat) : Msg → Except String Outcome
  | .startCmd => .ok ( start db uid)
  | .languageCmd => .ok (language_cmd db)
  | .plainText t => .ok (text_handler env db uid t)
  | .photoMsg => photo_handler env db uid
  | .voiceMsg mime => audio_handler env db uid mime
  | .videoMsg => .ok (video_handler db)

/-! ## Preference Store lemmas -/

/-- Upserting into a list that has a row for `uid` puts `(uid, tag)` at
the position of the first such row. -/
theorem find_upsert_map (l : List (Nat × String)) (uid : Nat) (tag : String)
    (h : l.any (fun p => p.1 == uid) = true) :
    (l.map (fun p => if p.1 == uid then (uid, tag) else p)).find? (fun p => p.1 == uid)
      = some (uid, tag) := by
  induction l with
  | nil => simp at h
  | cons a l ih =>
    simp only [List.any_cons, Bool.or_eq_true] at h
    by_cases ha : (a.1 == uid) = true
    · simp [List.find?, ha]
    · rcases h with h | h
      · exact absurd h ha
      · simp only [List.map_cons, List.find?, ha, if_neg]
        simpa [ha] using ih h

/-- Appending a fresh `(uid, tag)` row to a list with no row for `uid`
makes it the row found for `uid`. -/
theorem find_append_new (l : List (Nat × String)) (uid : Nat) (tag : String)
    (h : l.any (fun p => p.1 == uid) = false) :
    (l ++ [(uid, tag)]).find? (fun p => p.1 == uid) = some (uid, tag) := by
  induction l with
  | nil => simp [List.find?]
  | cons a l ih =>
    simp only [List.any_cons, Bool.or_eq_false_iff] at h
    simp only [List.cons_append, List.find?, h.1]
    simpa [h.1] using ih h.2

/-- Round trip: reading back immediately after an upsert yields the
upserted tag. -/
theorem get_set_language (db : DB) (uid : Nat) (tag : String) :
    get_language (set_language db uid tag) uid = some tag := by
  unfold get_language set_language
  by_cases h : db.users.any (fun p => p.1 == uid) = true
  · rw [if_pos h, show ({ db with users := db.users.map (fun p => if p.1 == uid then (uid, tag) else p) } : DB).users = db.users.map (fun p => if p.1 == uid then (uid, tag) else p) from rfl,
      find_upsert_map db.users uid tag h]
    rfl
  · have h' : db.users.any (fun p => p.1 == uid) = false := by
      cases hb : db.users.any (fun p => p.1 == uid) with
      | true => exact absurd hb h
      | false => rfl
    rw [if_neg h, show ({ db with users := db.users ++ [(uid, tag)] } : DB).users = db.users ++ [(uid, tag)] from rfl,
      find_append_new db.users uid tag h']
    rfl

/-! ## Claims -/

/-- C4: `set_language` followed by `get_language` for the same user
returns the just-set tag, and a second `set_language` with a different
tag overwrites the first: only the latest tag is retrievable
(last-write-wins, no history). -/
theorem C4_roundtrip_last_write_wins (db : DB) (uid : Nat) (t1 t2 : String) :
    get_language (set_language db uid t1) uid = some t1 ∧
    get_language (set_language (set_language db uid t1) uid t2) uid = some t2 :=
  ⟨get_set_language db uid t1, get_set_language (set_language db uid t1) uid t2⟩

/-- C7: `language_instruction` maps any value outside the five-tag
enumeration (including `None`) to the English instruction, raising no
error, and maps each of the five tags to its directive from the fixed
table. -/
theorem C7_instruction_default (l : Option String)
    (h : ∀ n ∈ langNames, l ≠ some n) :
    language_instruction l = "Respond in English." ∧
    language_instruction (some "English") = "Respond in English." ∧
    language_instruction (some "Hindi") = "Respond in Hindi using Devanagari script." ∧
    language_instruction (some "Bengali") = "Respond in Bengali script." ∧
    language_instruction (some "Hinglish") = "Respond in Hinglish (Hindi written in English letters)." ∧
    language_instruction (some "Bengalish") = "Respond in Bengalish (Bengali written in English letters)." := by
  refine ⟨?_, rfl, rfl, rfl, rfl, rfl⟩
  match l with
  | none => rfl
  | some s =>
    have h1 : ¬ s = "English" := fun hs => h "English" (by decide) (by rw [hs])
    have h2 : ¬ s = "Hindi" := fun hs => h "Hindi" (by decide) (by rw [hs])
    have h3 : ¬ s = "Bengali" := fun hs => h "Bengali" (by decide) (by rw [hs])
    have h4 : ¬ s = "Hinglish" := fun hs => h "Hinglish" (by decide) (by rw [hs])
    have h5 : ¬ s = "Bengalish" := fun hs => h "Bengalish" (by decide) (by rw [hs])
    simp only [language_instruction, if_neg h1, if_neg h2, if_neg h3, if_neg h4, if_neg h5]

/-- Witness for C7 at the concrete non-tag value `some "Klingon"`. -/
theorem C7_witness : language_instruction (some "Klingon") = "Respond in English." :=
  (C7_instruction_default (some "Klingon") (by decide)).1

/-- C9: a video message gets the single static not-supported reply,
with zero generation calls and no write to the Preference Store or the
Message Log (the database is returned unchanged). -/
theorem C9_video_static (env : Env) (db : DB) (uid : Nat) :
    handle env db uid Msg.videoMsg =
      Except.ok { db := db
                  replies := ["Video analysis currently limited. Coming soon 🔥"]
                  calls := [] } := rfl

/-- C10: `normalize_language` matching is case-sensitive: a string
containing the lowercase "english" (and no capitalized tag name) yields
`none`, so it is treated as conversational content, not a selection. -/
theorem C10_case_sensitive :
    containsSub "i want english please" "english" = true ∧
    normalize_language "i want english please" = none := by decide

/-- If every tag name occurring in `t` equals `n`, then any other tag
name does not occur in `t`. -/
theorem not_contains_of_unique (t n m : String) (hm : m ∈ langNames)
    (huniq : ∀ k ∈ langNames, containsSub t k = true → k = n) (hne : m ≠ n) :
    containsSub t m = false := by
  cases hb : containsSub t m with
  | false => rfl
  | true => exact absurd (huniq m hm hb) hne

/-- C2: for every input containing exactly one of the five language
names as a substring, `normalize_language` returns the tag for that
name; for every input containing none of the five names, it returns
`none`. -/
theorem C2_normalize_exact (t : String) :
    (∀ n ∈ langNames, containsSub t n = true →
        (∀ m ∈ langNames, containsSub t m = true → m = n) →
        normalize_language t = some n) ∧
    ((∀ m ∈ langNames, containsSub t m = false) → normalize_language t = none) := by
  constructor
  · intro n hn h1 huniq
    fin_cases hn
    · simp [normalize_language, h1]
    · have hH := not_contains_of_unique t "Bengalish" "Hinglish" (by decide) huniq (by decide)
      simp [normalize_language, hH, h1]
    · have hH := not_contains_of_unique t "English" "Hinglish" (by decide) huniq (by decide)
      have hB := not_contains_of_unique t "English" "Bengalish" (by decide) huniq (by decide)
      simp [normalize_language, hH, hB, h1]
    · have hH := not_contains_of_unique t "Hindi" "Hinglish" (by decide) huniq (by decide)
      have hB := not_contains_of_unique t "Hindi" "Bengalish" (by decide) huniq (by decide)
      have hE := not_contains_of_unique t "Hindi" "English" (by decide) huniq (by decide)
      simp [normalize_language, hH, hB, hE, h1]
    · have hH := not_contains_of_unique t "Bengali" "Hinglish" (by decide) huniq (by decide)
      have hB := not_contains_of_unique t "Bengali" "Bengalish" (by decide) huniq (by decide)
      have hE := not_contains_of_unique t "Bengali" "English" (by decide) huniq (by decide)
      have hD := not_contains_of_unique t "Bengali" "Hindi" (by decide) huniq (by decide)
      simp [normalize_language, hH, hB, hE, hD, h1]
  · intro h
    have hH := h "Hinglish" (by decide)
    have hB := h "Bengalish" (by decide)
    have hE := h "English" (by decide)
    have hD := h "Hindi" (by decide)
    have hG := h "Bengali" (by decide)
    simp [normalize_language, hH, hB, hE, hD, hG]

/-- Witness for C2: a string containing exactly the name "Hindi", and a
string containing no tag name. -/
theorem C2_witness :
    normalize_language "I want Hindi" = some "Hindi" ∧
    normalize_language "no names here" = none :=
  ⟨(C2_normalize_exact "I want Hindi").1 "Hindi" (by decide) (by decide) (by decide),
   (C2_normalize_exact "no names here").2 (by decide)⟩

/-- C3 counterexample: "HinglishBengalish" contains "Bengalish", yet
`normalize_language` returns "Hinglish" (the first branch fires), not
"Bengalish" — so "every input containing Bengalish returns Bengalish"
is false as stated. -/
theorem C3_counterexample :
    containsSub "HinglishBengalish" "Bengalish" = true ∧
    normalize_language "HinglishBengalish" ≠ some "Bengalish" := by decide

/-- C3 (amended): the names are checked in the fixed priority order
Hinglish, Bengalish, English, Hindi, Bengali; every input containing
both "Hinglish" and "Hindi" yields "Hinglish", and every input
containing "Bengalish" but not "Hinglish" yields "Bengalish" rather
than "Bengali". -/
theorem C3_priority (t : String) :
    (containsSub t "Hinglish" = true → containsSub t "Hindi" = true →
        normalize_language t = some "Hinglish") ∧
    (containsSub t "Bengalish" = true → containsSub t "Hinglish" = false →
        normalize_language t = some "Bengalish") := by
  constructor
  · intro h1 _
    simp [normalize_language, h1]
  · intro h1 h2
    simp [normalize_language, h1, h2]

/-- Witness for C3 at concrete inputs exercising both conjuncts. -/
theorem C3_witness :
    normalize_language "Hinglish and Hindi" = some "Hinglish" ∧
    normalize_language "use Bengalish" = some "Bengalish" :=
  ⟨(C3_priority "Hinglish and Hindi").1 (by decide) (by decide),
   (C3_priority "use Bengalish").2 (by decide) (by decide)⟩

/-! ## Concrete fixtures for witnesses and counterexamples -/

/-- Empty database: no user preferences, no logged messages. -/
def db0 : DB := { users := [], messages := [] }

/-- Database where user 1 has selected English. -/
def db1 : DB := { users := [(1, "English")], messages := [] }

/-- Environment where every external call succeeds. -/
def envGood : Env :=
  { mediaFetch := .ok [7, 7, 7]
    genRaw := .ok (some "I hear you.")
    genMedia := .ok "A calm photo."
    now := 3 }

/-- Environment where the generation call succeeds but produces the
empty string as its response text. -/
def envEmpty : Env :=
  { mediaFetch := .ok []
    genRaw := .ok (some "")
    genMedia := .ok "x"
    now := 5 }

/-- Environment where the media download throws. -/
def envFetchFail : Env :=
  { mediaFetch := .error "network error"
    genRaw := .ok (some "x")
    genMedia := .ok "x"
    now := 0 }

/-- C8: a plain-text message classified as a selection persists the tag
via the Preference Store upsert, sends exactly the one confirmation
reply, makes no generation call, and writes no Message Log row (the
upsert leaves `messages` untouched). -/
theorem C8_selection_consumed (env : Env) (db : DB) (uid : Nat) (t tag : String)
    (h : normalize_language t = some tag) :
    text_handler env db uid t =
      { db := set_language db uid tag
        replies := ["Language set to " ++ tag ++ " ✅"]
        calls := [] } ∧
    (set_language db uid tag).messages = db.messages := by
  constructor
  · simp [text_handler, h]
  · unfold set_language
    split <;> rfl

/-- Witness for C8: user 7 sends "English" on an empty database. -/
theorem C8_witness :
    text_handler envGood db0 7 "English" =
      { db := set_language db0 7 "English"
        replies := ["Language set to " ++ "English" ++ " ✅"]
        calls := [] } ∧
    (set_language db0 7 "English").messages = db0.messages :=
  C8_selection_consumed envGood db0 7 "English" "English" (by decide)

/-- C5 counterexample: user 1 has a stored preference and sends a
non-selection text; the generation call succeeds (no exception) with
response text "", yet zero Message Log rows are appended and the
fallback reply is sent — the success branch of the claim fails for a
successful call with empty text, because `text_handler` tests Python
truthiness (`if not ai_response`). -/
theorem C5_counterexample :
    envEmpty.genRaw = Except.ok (some "") ∧
    (text_handler envEmpty db1 1 "hello").db.messages = db1.messages ∧
    (text_handler envEmpty db1 1 "hello").replies = ["Error generating response."] :=
  ⟨rfl, rfl, rfl⟩

/-- C5 (amended): for a non-selection text from a user with a stored
preference, a generation call that succeeds with a non-empty text
appends exactly one Message Log row holding the original text and a
non-null timestamp and sends the generated text as the only reply; a
call that fails, or that yields `None` or the empty string, appends
zero rows and sends exactly the one fallback reply. -/
theorem C5_text_generation (env : Env) (db : DB) (uid : Nat) (t lang : String)
    (hsel : normalize_language t = none) (hpref : get_language db uid = some lang) :
    (∀ r : String, env.genRaw = Except.ok (some r) → r ≠ "" →
        (text_handler env db uid t).db.messages
            = db.messages ++ [{ user_id := uid, text := t, mood_score := none,
                                timestamp := some env.now }] ∧
        (text_handler env db uid t).replies = [r]) ∧
    (falsyOpt (generate_ai env.genRaw) = true →
        (text_handler env db uid t).db = db ∧
        (text_handler env db uid t).replies = ["Error generating response."]) := by
  constructor
  · intro r hr hne
    have hra : generate_ai env.genRaw = some r := by rw [hr]; rfl
    have hemp : r.isEmpty = false := by
      cases he : r.isEmpty with
      | false => rfl
      | true => exact absurd ((String.isEmpty_iff r).mp he) hne
    constructor <;> simp [text_handler, hsel, hpref, hra, hemp]
  · intro hf
    cases hra : generate_ai env.genRaw with
    | none => constructor <;> simp [text_handler, hsel, hpref, hra]
    | some r =>
      have hemp : r.isEmpty = true := by rw [hra] at hf; exact hf
      constructor <;> simp [text_handler, hsel, hpref, hra, hemp]

/-- Witness for C5: a successful non-empty generation for user 1. -/
theorem C5_witness :
    (text_handler envGood db1 1 "hello").db.messages
        = db1.messages ++ [{ user_id := 1, text := "hello", mood_score := none,
                             timestamp := some envGood.now }] ∧
    (text_handler envGood db1 1 "hello").replies = ["I hear you."] :=
  (C5_text_generation envGood db1 1 "hello" "English" (by decide) rfl).1
    "I hear you." rfl (by decide)

/-- C6: for a photo or voice/audio message from a user with no stored
preference whose media download succeeds, handling proceeds with the
English language instruction — the single generation call carries
"Respond in English." — and the reply is the generation output or the
media fallback, never the selection prompt; whereas a non-selection
plain-text message from such a user makes no generation call and
prompts for language selection. -/
theorem C6_media_defaults_english (env : Env) (db : DB) (uid : Nat)
    (hpref : get_language db uid = none) :
    (∀ b : List Nat, env.mediaFetch = Except.ok b →
        ∃ out, photo_handler env db uid = Except.ok out ∧
          out.calls = [[Segment.text ("Respond in English." ++ " Describe this image emotionally."),
                        Segment.blob b "image/jpeg"]] ∧
          out.db = db ∧
          ((∃ r, env.genMedia = Except.ok r ∧ out.replies = [r]) ∨
            out.replies = ["Couldn\x27t analyze image."])) ∧
    (∀ (b : List Nat) (mime : Option String), env.mediaFetch = Except.ok b →
        ∃ out, audio_handler env db uid mime = Except.ok out ∧
          out.calls = [[Segment.text ("Respond in English." ++ " Transcribe this audio and respond emotionally."),
                        Segment.blob b (resolveMime mime)]] ∧
          out.db = db ∧
          ((∃ r, env.genMedia = Except.ok r ∧ out.replies = [r]) ∨
            out.replies = ["Couldn\x27t process audio."])) ∧
    (∀ t : String, normalize_language t = none →
        text_handler env db uid t =
          { db := db, replies := ["Please select language first."], calls := [] }) := by
  refine ⟨?_, ?_, ?_⟩
  · intro b hb
    cases hg : env.genMedia with
    | ok r =>
      refine ⟨{ db := db, replies := [r],
                calls := [[Segment.text ("Respond in English." ++ " Describe this image emotionally."),
                           Segment.blob b "image/jpeg"]] },
        ?_, rfl, rfl, Or.inl ⟨r, rfl, rfl⟩⟩
      simp only [photo_handler, hb, hpref, hg]
      rfl
    | error e =>
      refine ⟨{ db := db, replies := ["Couldn\x27t analyze image."],
                calls := [[Segment.text ("Respond in English." ++ " Describe this image emotionally."),
                           Segment.blob b "image/jpeg"]] },
        ?_, rfl, rfl, Or.inr rfl⟩
      simp only [photo_handler, hb, hpref, hg]
      rfl
  · intro b mime hb
    cases hg : env.genMedia with
    | ok r =>
      refine ⟨{ db := db, replies := [r],
                calls := [[Segment.text ("Respond in English." ++ " Transcribe this audio and respond emotionally."),
                           Segment.blob b (resolveMime mime)]] },
        ?_, rfl, rfl, Or.inl ⟨r, rfl, rfl⟩⟩
      simp only [audio_handler, hb, hpref, hg]
      rfl
    | error e =>
      refine ⟨{ db := db, replies := ["Couldn\x27t process audio."],
                calls := [[Segment.text ("Respond in English." ++ " Transcribe this audio and respond emotionally."),
                           Segment.blob b (resolveMime mime)]] },
        ?_, rfl, rfl, Or.inr rfl⟩
      simp only [audio_handler, hb, hpref, hg]
      rfl
  · intro t ht
    simp [text_handler, ht, hpref]

/-- Witness for C6: user 9 with no preference, successful download. -/
theorem C6_witness :
    ∃ out, photo_handler envGood db0 9 = Except.ok out ∧
      out.calls = [[Segment.text ("Respond in English." ++ " Describe this image emotionally."),
                    Segment.blob [7, 7, 7] "image/jpeg"]] ∧
      out.db = db0 ∧
      ((∃ r, envGood.genMedia = Except.ok r ∧ out.replies = [r]) ∨
        out.replies = ["Couldn\x27t analyze image."]) :=
  (C6_media_defaults_english envGood db0 9 rfl).1 [7, 7, 7] rfl

/-- Media-retrieval precondition for C1: photo and voice/audio handling
download the media before their `try` block, so the amended claim
assumes that download succeeded; other content kinds retrieve no media. -/
def fetchOkFor (env : Env) : Msg → Prop
  | .photoMsg => ∃ b, env.mediaFetch = Except.ok b
  | .voiceMsg _ => ∃ b, env.mediaFetch = Except.ok b
  | _ => True

/-- C1 counterexample: a photo (or voice) message whose media download
throws makes the handler re-raise before any reply — the exception
escapes to the chat-delivery collaborator with zero replies sent,
because `get_file` / `download_as_bytearray` sit outside the handler
`try` block. -/
theorem C1_counterexample :
    handle envFetchFail db0 1 Msg.photoMsg = Except.error "network error" ∧
    handle envFetchFail db0 1 (Msg.voiceMsg none) = Except.error "network error" :=
  ⟨rfl, rfl⟩

/-- C1 (amended): for every inbound message of any supported kind,
provided the media download succeeds when the kind carries media
(trivially true for command, plain text and video), the handling
routine sends exactly one reply to the originating user and no
exception — in particular none from the generation call — escapes to
the chat-delivery collaborator; an exception thrown by the media
download itself, however, escapes with no reply sent. -/
theorem C1_one_reply (env : Env) (db : DB) (uid : Nat) (msg : Msg)
    (h : fetchOkFor env msg) :
    ∃ out, handle env db uid msg = Except.ok out ∧ out.replies.length = 1 := by
  cases msg with
  | startCmd =>
    refine ⟨ start db uid, rfl, ?_⟩
    unfold start
    cases get_language db uid <;> rfl
  | languageCmd => exact ⟨language_cmd db, rfl, rfl⟩
  | plainText t =>
    refine ⟨text_handler env db uid t, rfl, ?_⟩
    unfold text_handler
    cases normalize_language t with
    | some tag => rfl
    | none =>
      cases get_language db uid with
      | none => rfl
      | some lang =>
        cases generate_ai env.genRaw with
        | none => rfl
        | some r =>
          cases hre : r.isEmpty <;> simp only [hre] <;> rfl
  | photoMsg =>
    obtain ⟨b, hb⟩ := h
    cases hg : env.genMedia with
    | ok r =>
      refine ⟨{ db := db, replies := [r],
                calls := [[Segment.text (language_instruction (some ((get_language db uid).getD "English")) ++ " Describe this image emotionally."),
                           Segment.blob b "image/jpeg"]] }, ?_, rfl⟩
      simp only [handle, photo_handler, hb, hg]
    | error e =>
      refine ⟨{ db := db, replies := ["Couldn\x27t analyze image."],
                calls := [[Segment.text (language_instruction (some ((get_language db uid).getD "English")) ++ " Describe this image emotionally."),
                           Segment.blob b "image/jpeg"]] }, ?_, rfl⟩
      simp only [handle, photo_handler, hb, hg]
  | voiceMsg mime =>
    obtain ⟨b, hb⟩ := h
    cases hg : env.genMedia with
    | ok r =>
      refine ⟨{ db := db, replies := [r],
                calls := [[Segment.text (language_instruction (some ((get_language db uid).getD "English")) ++ " Transcribe this audio and respond emotionally."),
                           Segment.blob b (resolveMime mime)]] }, ?_, rfl⟩
      simp only [handle, audio_handler, hb, hg]
    | error e =>
      refine ⟨{ db := db, replies := ["Couldn\x27t process audio."],
                calls := [[Segment.text (language_instruction (some ((get_language db uid).getD "English")) ++ " Transcribe this audio and respond emotionally."),
                           Segment.blob b (resolveMime mime)]] }, ?_, rfl⟩
      simp only [handle, audio_handler, hb, hg]
  | videoMsg => exact ⟨video_handler db, rfl, rfl⟩

/-- Witness for C1 at a successful photo download. -/
theorem C1_witness :
    ∃ out, handle envGood db0 3 Msg.photoMsg = Except.ok out ∧
      out.replies.length = 1 :=
  C1_one_reply envGood db0 3 Msg.photoMsg ⟨[7, 7, 7], rfl⟩
